import Mathlib

/-
Shallow embedding of ctparse's corpus module (src/ctparse/corpus.py):
the dataset builder `make_partial_rule_dataset`, the canonical-string
dispatcher `parse_nb_string`, and the corpus validator `run_corpus` with
its helper `_run_corpus_one_test`.

Modelling conventions:
- The external generator `ctparse_gen` is a parameter of type `Gen`; it maps
  the call arguments (text, ts, relative_match_len, timeout, max_stack_depth,
  scorer, latent_time) to the finite list of yielded candidates, where an
  element `none` models Python's `None`.
- Python exceptions are modelled with `Except`: `RunError.maxEmpty` is the
  ValueError of `max()` on an empty sequence, `RunError.zeroDivision` is
  ZeroDivisionError, `RunError.corpusError` is `Exception("ctparse corpus
  has errors")`, `RunError.assertionError` is a failing `assert`.
- Calls to `logger.warning` / `logger.info` are modelled as a trace of
  `LogMsg` values (the message plus its format arguments, captured before
  textual formatting); the trace produced before an exception is kept.
- Python string operations are modelled over the character list of the
  string; Python float division keeps the exact numerator/denominator pair.
-/

namespace CtparseCorpus

/-- Python `s.startswith(pre)`, over the character list of the string. -/
def pyStartswith (s pre : String) : Bool :=
  s.data.take pre.data.length == pre.data

/-- Python slice `s[a:-1]`: drop the first `a` characters and the last one
(empty result when the string is too short, as in Python). -/
def pySliceNb (s : String) (a : Nat) : String :=
  String.mk ((s.data.drop a).dropLast)

/-- Python left-justification to width `w` with spaces, as done by the
format spec `: <70` in the progress status text (line 75). -/
def pyLjust (s : String) (w : Nat) : String :=
  s ++ String.mk (List.replicate (w - s.data.length) ' ')

/-- One element of a candidate's `production` sequence (a rule identifier /
rule application); Python `str(p)` renders its name. -/
structure ProdStep where
  name : String
deriving DecidableEq, Repr

/-- Python `str(p)` on a production element (lines 100 and 178). -/
def ProdStep.str (p : ProdStep) : String := p.name

/-- External resolved value (`ctparse.types.Artifact`): an opaque structured
payload plus the canonical no-bound textual form returned by `nb_str()`.
Equality (`==`) compares the whole structure. -/
structure Artifact where
  value : String
  nbText : String
deriving DecidableEq, Repr

/-- `Artifact.nb_str()`: the canonical no-bound textual form. -/
def Artifact.nb_str (a : Artifact) : String := a.nbText

/-- External `datetime.datetime`, kept opaque (only constructed by
`strptime` and passed through to the generator). -/
structure PyDateTime where
  raw : String
deriving DecidableEq, Repr

/-- `datetime.strptime(date_string, format)`, modelled as an opaque tagging
of the parsed string (the datetime value itself is never inspected here). -/
def strptime (date_string fmt : String) : PyDateTime := ⟨date_string⟩

/-- Scoring strategy: external and opaque, only passed through to the
generator (`ctparse.scorer.Scorer`). -/
abbrev Scorer := String

/-- `ctparse.scorer.DummyScorer()`, the neutral scorer of the validator. -/
def DummyScorer : Scorer := "DummyScorer"

/-- A candidate parse yielded by the generator: derivation sequence
`production`, final value `resolution`, rank `score` (a float in Python,
modelled as an integer: only its ordering is used by this module). -/
structure Parse where
  production : List ProdStep
  resolution : Artifact
  score : Int
deriving DecidableEq, Repr

/-- A triplet of text, reference timestamp and correct parse (lines 25-28). -/
structure TimeParseEntry where
  text : String
  ts : PyDateTime
  gold : Artifact
deriving DecidableEq, Repr

/-- The external generator `ctparse_gen(text, ts, relative_match_len,
timeout, max_stack_depth, scorer, latent_time)`, modelled as the finite
list of candidates it yields for those arguments. -/
abbrev Gen := String → PyDateTime → Rat → Rat → Nat → Scorer → Bool → List (Option Parse)

/-- Lines 99-101 (and 177-179): the feature row of every non-empty
production slice `production[:i]` for `i` from 1 to `len(production)`,
each element rendered with `str`. -/
def prodRows (production : List ProdStep) : List (List String) :=
  (List.range production.length).map fun i => (production.take (i + 1)).map ProdStep.str

/-- Lines 104-111: tqdm progress bar wrapper; `set_description` is a pure
side effect, every value of `it` is yielded unchanged and in order. -/
def _progress_bar {T : Type} (it : List T) (total : Nat) (status_text : T → String) :
    List T :=
  it

/-- Lines 33-101: `make_partial_rule_dataset`. The Python defaults are
`relative_match_len=1.0`, `progress=False`; callers here pass all
arguments positionally. -/
def make_partial_rule_dataset (gen : Gen) (entries : List TimeParseEntry)
    (scorer : Scorer) (timeout : Rat) (max_stack_depth : Nat)
    (relative_match_len : Rat) (progress : Bool) :
    List (List String × Bool) :=
  let entries_it :=
    if progress then
      _progress_bar entries entries.length (fun entry => "  " ++ pyLjust entry.text 70)
    else entries
  entries_it.flatMap fun entry =>
    (gen entry.text entry.ts relative_match_len timeout max_stack_depth scorer false).flatMap
      fun parse? =>
        match parse? with
        | none => []
        | some parse =>
          let y := parse.resolution == entry.gold
          (prodRows parse.production).map fun X => (X, y)

/-- External structured values (`ctparse.types`): a Time, Interval or
Duration reconstructed by `from_str` from the inner part of a no-bound
string; the three parsers are external, modelled as opaque constructors. -/
inductive NbValue where
  | time (s : String)
  | interval (s : String)
  | duration (s : String)
deriving DecidableEq, Repr

/-- External `Time.from_str` (`ctparse.types`), kept opaque. -/
def Time.from_str (s : String) : NbValue := .time s

/-- External `Interval.from_str` (`ctparse.types`), kept opaque. -/
def Interval.from_str (s : String) : NbValue := .interval s

/-- External `Duration.from_str` (`ctparse.types`), kept opaque. -/
def Duration.from_str (s : String) : NbValue := .duration s

/-- A single-quote character, as written in the ValueError message. -/
def squote : String := String.singleton (Char.ofNat 39)

/-- Lines 133-145: `parse_nb_string`, dispatching on the type-name prefix
of the no-bound string; ValueError is modelled as `Except.error` carrying
the formatted message. -/
def parse_nb_string (gold_parse : String) : Except String NbValue :=
  if pyStartswith gold_parse "Time" then
    .ok (Time.from_str (pySliceNb gold_parse 7))
  else if pyStartswith gold_parse "Interval" then
    .ok (Interval.from_str (pySliceNb gold_parse 11))
  else if pyStartswith gold_parse "Duration" then
    .ok (Duration.from_str (pySliceNb gold_parse 11))
  else
    .error (squote ++ gold_parse ++ squote ++ " has an invalid format")

/-- The exceptions that can escape the validator. -/
inductive RunError where
  | assertionError
  | maxEmpty
  | zeroDivision
  | corpusError
deriving DecidableEq, Repr

/-- One logging call of the validator, captured with its format arguments
(before textual formatting): the two `logger.warning` calls of
`_run_corpus_one_test` and the four `logger.info` calls of `run_corpus`
(ratios kept as exact numerator/denominator pairs). -/
inductive LogMsg where
  | warnTargetNeverProduced (target test : String)
  | warnNotAlwaysProduced (target : String)
  | infoRunSummary (total_tests targets pos_parses neg_parses : Nat)
  | infoShareCorrect (num den : Nat)
  | infoShareFirst (num den : Nat)
  | infoShareBest (num den : Nat)
deriving DecidableEq, Repr

/-- Python `max(xs, key=lambda x: x[0])`: ValueError on an empty sequence,
otherwise the first element with maximal first component. -/
def pyMax (l : List (Int × Bool)) : Except RunError (Int × Bool) :=
  match l with
  | [] => .error .maxEmpty
  | x :: xs => .ok (xs.foldl (fun acc p => if acc.1 < p.1 then p else acc) x)

/-- Python division `a / b`: ZeroDivisionError when `b = 0`; the quotient
is kept as the exact pair (numerator, denominator), since the value is
only interpolated into a log message. -/
def pyDiv (a b : Nat) : Except RunError (Nat × Nat) :=
  if b = 0 then .error .zeroDivision else .ok (a, b)

/-- The accumulators of `_run_corpus_one_test` (lines 152-155). -/
structure CaseState where
  Xs : List (List String)
  ys : List Bool
  pos_parses : Nat
  neg_parses : Nat
  pos_first_parses : Nat
  pos_best_scored : Nat
  total_tests : Nat
  all_tests_pass : Bool
deriving DecidableEq, Repr

/-- The per-sentence loop variables of `_run_corpus_one_test`
(lines 159-161) together with the shared accumulators. -/
structure SentLoop where
  one_prod_passes : Bool
  first_prod : Bool
  y_score : List (Int × Bool)
  st : CaseState
deriving DecidableEq, Repr

/-- Lines 162-186: the candidate loop of one sentence. A `None` candidate
fails the `assert parse is not None`; otherwise the label
`y = (parse.resolution.nb_str() == target)` is computed and all prefix
rows, counters and the `(score, y)` record are updated with it. -/
def parsesLoop (target : String) : List (Option Parse) → SentLoop → Except RunError SentLoop
  | [], sl => .ok sl
  | none :: _, _ => .error .assertionError
  | some parse :: rest, sl =>
    let y := parse.resolution.nb_str == target
    parsesLoop target rest
      { one_prod_passes := sl.one_prod_passes || y
        first_prod := false
        y_score := sl.y_score ++ [(parse.score, y)]
        st := { sl.st with
          Xs := sl.st.Xs ++ prodRows parse.production
          ys := sl.st.ys ++ List.replicate parse.production.length y
          pos_parses := sl.st.pos_parses + (if y then 1 else 0)
          neg_parses := sl.st.neg_parses + (if y then 0 else 1)
          pos_first_parses := sl.st.pos_first_parses + (if y && sl.first_prod then 1 else 0) } }

/-- Lines 158-193: loop over the sentences of one test case. `numTests` is
`len(tests)` of the whole sentence list, added to `total_tests` once per
sentence exactly as the source does on line 192. The warning of lines
187-190 is emitted before the `max` of line 191 can fail. -/
def testsLoop (gen : Gen) (target : String) (ts : PyDateTime) (max_stack_depth : Nat)
    (numTests : Nat) :
    List String → CaseState → List LogMsg → List LogMsg × Except RunError CaseState
  | [], st, log => (log, .ok st)
  | test :: rest, st, log =>
    match parsesLoop target
        (gen test ts 1 0 max_stack_depth DummyScorer false)
        { one_prod_passes := false, first_prod := true, y_score := [], st := st } with
    | .error e => (log, .error e)
    | .ok sl =>
      let log1 :=
        if sl.one_prod_passes then log
        else log ++ [LogMsg.warnTargetNeverProduced target test]
      match pyMax sl.y_score with
      | .error e => (log1, .error e)
      | .ok best =>
        testsLoop gen target ts max_stack_depth numTests rest
          { sl.st with
            pos_best_scored := sl.st.pos_best_scored + (if best.2 then 1 else 0)
            total_tests := sl.st.total_tests + numTests
            all_tests_pass := sl.st.all_tests_pass && sl.one_prod_passes }
          log1

/-- Lines 148-206: `_run_corpus_one_test`. Returns the log trace plus
either the exception or the returned tuple, with the eight components
gathered in a `CaseState` and the final `at_least_one_failed` flag.
The Python default `max_stack_depth=0` is passed explicitly by callers. -/
def _run_corpus_one_test (gen : Gen) (target : String) (ts_str : String)
    (tests : List String) (max_stack_depth : Nat) :
    List LogMsg × Except RunError (CaseState × Bool) :=
  let ts := strptime ts_str "%Y-%m-%dT%H:%M"
  match testsLoop gen target ts max_stack_depth tests.length tests
      { Xs := [], ys := [], pos_parses := 0, neg_parses := 0, pos_first_parses := 0,
        pos_best_scored := 0, total_tests := 0, all_tests_pass := true } [] with
  | (log, .error e) => (log, .error e)
  | (log, .ok st) =>
    if st.all_tests_pass then (log, .ok (st, false))
    else (log ++ [LogMsg.warnNotAlwaysProduced target], .ok (st, true))

/-- The accumulators of `run_corpus` (lines 235-243). -/
structure RunAcc where
  at_least_one_failed : Bool
  pos_parses : Nat
  neg_parses : Nat
  pos_first_parses : Nat
  pos_best_scored : Nat
  total_tests : Nat
  Xs : List (List String)
  ys : List Bool
deriving DecidableEq, Repr

/-- Lines 244-262: the test-case loop of `run_corpus` (tqdm yields the
test cases unchanged); an exception from `_run_corpus_one_test`
propagates, keeping the log emitted so far. -/
def corpusLoop (gen : Gen) :
    List (String × String × List String) → RunAcc → List LogMsg →
    List LogMsg × Except RunError RunAcc
  | [], acc, log => (log, .ok acc)
  | (target, ts, tests) :: rest, acc, log =>
    match _run_corpus_one_test gen target ts tests 0 with
    | (log1, .error e) => (log ++ log1, .error e)
    | (log1, .ok (st, failed)) =>
      corpusLoop gen rest
        { at_least_one_failed := acc.at_least_one_failed || failed
          pos_parses := acc.pos_parses + st.pos_parses
          neg_parses := acc.neg_parses + st.neg_parses
          pos_first_parses := acc.pos_first_parses + st.pos_first_parses
          pos_best_scored := acc.pos_best_scored + st.pos_best_scored
          total_tests := acc.total_tests + st.total_tests
          Xs := acc.Xs ++ st.Xs
          ys := acc.ys ++ st.ys }
        (log ++ log1)

/-- The initial accumulator values of `run_corpus` (lines 235-243). -/
def runAccInit : RunAcc :=
  { at_least_one_failed := false, pos_parses := 0, neg_parses := 0,
    pos_first_parses := 0, pos_best_scored := 0, total_tests := 0, Xs := [], ys := [] }

/-- Lines 209-286: `run_corpus`. After the test-case loop, the four info
messages are logged in order (each of the three ratios can raise
ZeroDivisionError first), then `Exception("ctparse corpus has errors")`
is raised iff any test case failed; otherwise `(Xs, ys)` is returned. -/
def run_corpus (gen : Gen) (corpus : List (String × String × List String)) :
    List LogMsg × Except RunError (List (List String) × List Bool) :=
  match corpusLoop gen corpus runAccInit [] with
  | (log, .error e) => (log, .error e)
  | (log, .ok acc) =>
    let log := log ++ [LogMsg.infoRunSummary acc.total_tests corpus.length
      acc.pos_parses acc.neg_parses]
    match pyDiv acc.pos_parses (acc.pos_parses + acc.neg_parses) with
    | .error e => (log, .error e)
    | .ok r1 =>
      let log := log ++ [LogMsg.infoShareCorrect r1.1 r1.2]
      match pyDiv acc.pos_first_parses (acc.pos_parses + acc.neg_parses) with
      | .error e => (log, .error e)
      | .ok r2 =>
        let log := log ++ [LogMsg.infoShareFirst r2.1 r2.2]
        match pyDiv acc.pos_best_scored acc.total_tests with
        | .error e => (log, .error e)
        | .ok r3 =>
          let log := log ++ [LogMsg.infoShareBest r3.1 r3.2]
          if acc.at_least_one_failed then (log, .error .corpusError)
          else (log, .ok (acc.Xs, acc.ys))

/-- Whether one yielded candidate matches the target textually, as on
line 173. -/
def optMatches (target : String) (p? : Option Parse) : Bool :=
  match p? with
  | some p => p.resolution.nb_str == target
  | none => false

/-- The candidate list produced for one validator sentence: the generator
called exactly as on lines 162-170 with `max_stack_depth = 0` (the value
used by `run_corpus`). -/
def genFor (gen : Gen) (ts : PyDateTime) (test : String) : List (Option Parse) :=
  gen test ts 1 0 0 DummyScorer false

/-- A sentence is positive when at least one of its candidates matches. -/
def sentencePositive (gen : Gen) (target : String) (ts : PyDateTime) (test : String) : Bool :=
  (genFor gen ts test).any (optMatches target)

/-- The reference time of a test case, as parsed on line 151. -/
def caseTs (c : String × String × List String) : PyDateTime :=
  strptime c.2.1 "%Y-%m-%dT%H:%M"

/-- A test case passes when every one of its sentences is positive. -/
def casePositive (gen : Gen) (c : String × String × List String) : Bool :=
  c.2.2.all fun test => sentencePositive gen c.1 (caseTs c) test

/-- A corpus is fully covered when every test case passes. -/
def corpusPositive (gen : Gen) (corpus : List (String × String × List String)) : Bool :=
  corpus.all (casePositive gen)

/-- The per-sentence warnings one test case contributes to the log. -/
def warningsFor (gen : Gen) (target : String) (ts : PyDateTime) (tests : List String) :
    List LogMsg :=
  tests.filterMap fun test =>
    if sentencePositive gen target ts test then none
    else some (LogMsg.warnTargetNeverProduced target test)

/-- The complete log trace one test case contributes. -/
def caseWarnings (gen : Gen) (c : String × String × List String) : List LogMsg :=
  warningsFor gen c.1 (caseTs c) c.2.2 ++
    (if casePositive gen c then [] else [LogMsg.warnNotAlwaysProduced c.1])

/-- The complete warning trace of a full validator run. -/
def corpusWarnings (gen : Gen) (corpus : List (String × String × List String)) : List LogMsg :=
  corpus.flatMap (caseWarnings gen)

/-- The generator yields, for every sentence of the corpus, at least one
candidate and no `None` candidate. -/
def goodGen (gen : Gen) (corpus : List (String × String × List String)) : Prop :=
  ∀ c ∈ corpus, ∀ test ∈ c.2.2,
    genFor gen (caseTs c) test ≠ [] ∧ ∀ p? ∈ genFor gen (caseTs c) test, p?.isSome = true

/-- The number of sentences of a corpus: the sum over its test cases of the
length of their sentence lists. -/
def sentenceCount (corpus : List (String × String × List String)) : Nat :=
  (corpus.map fun c => c.2.2.length).sum

/-- A generator with the `None` candidates filtered out, used to state that
the dataset builder skips them. -/
def dropNoneGen (gen : Gen) : Gen := fun text ts rml timeout msd scorer latent =>
  ((gen text ts rml timeout msd scorer latent).filterMap id).map some

/-- A generator that yields no candidate for any sentence. -/
def genEmpty : Gen := fun _ _ _ _ _ _ _ => []

/-- A generator that yields one candidate with a one-step production and
resolution text "T" for every sentence. -/
def genOne : Gen := fun _ _ _ _ _ _ _ => [some ⟨[⟨"r1"⟩], ⟨"v", "T"⟩, 0⟩]

/-- A generator that yields two candidates for every sentence: first a
matching one (text "T", score 5), then a non-matching one (text "W",
score 3). -/
def genTwo : Gen := fun _ _ _ _ _ _ _ =>
  [some ⟨[⟨"r1"⟩], ⟨"v1", "T"⟩, 5⟩, some ⟨[⟨"r2"⟩], ⟨"v2", "W"⟩, 3⟩]

instance {ε α : Type} [DecidableEq ε] [DecidableEq α] : DecidableEq (Except ε α)
  | .error a, .error b =>
    if h : a = b then isTrue (by rw [h]) else isFalse (fun hh => by cases hh; exact h rfl)
  | .error _, .ok _ => isFalse (fun hh => by cases hh)
  | .ok _, .error _ => isFalse (fun hh => by cases hh)
  | .ok a, .ok b =>
    if h : a = b then isTrue (by rw [h]) else isFalse (fun hh => by cases hh; exact h rfl)

/-- Claim C1: `make_partial_rule_dataset` is the concatenation, over entries
and over non-`None` candidates, of the per-candidate row blocks; the block
of a candidate with production length `n` has exactly `n` rows, the row of
index `i < n` is the stringified prefix `production[:i+1]`, and every row of
the block carries the one label `parse.resolution == entry.gold` of the full
candidate. -/
theorem make_partial_rule_dataset_prefix_rows (gen : Gen) (entries : List TimeParseEntry)
    (scorer : Scorer) (timeout : Rat) (max_stack_depth : Nat)
    (relative_match_len : Rat) (progress : Bool) :
    (make_partial_rule_dataset gen entries scorer timeout max_stack_depth
        relative_match_len progress =
      entries.flatMap fun entry =>
        (gen entry.text entry.ts relative_match_len timeout max_stack_depth scorer
            false).flatMap
          fun parse? =>
            match parse? with
            | none => []
            | some parse =>
              (prodRows parse.production).map fun X => (X, parse.resolution == entry.gold))
  ∧ (∀ production : List ProdStep, (prodRows production).length = production.length)
  ∧ (∀ (production : List ProdStep) (i : Nat), i < production.length →
      (prodRows production).getD i [] = (production.take (i + 1)).map ProdStep.str) := by
  refine ⟨?_, ?_, ?_⟩
  · cases progress <;> rfl
  · intro production
    simp [prodRows]
  · intro production i hi
    have hlen : i < (prodRows production).length := by simpa [prodRows] using hi
    rw [List.getD_eq_getElem _ _ hlen]
    simp [prodRows]

/-- Witness for C1 at a concrete two-step production. -/
theorem make_partial_rule_dataset_prefix_rows_witness :
    (prodRows [ProdStep.mk "a", ProdStep.mk "b"]).getD 1 [] =
      ([ProdStep.mk "a", ProdStep.mk "b"].take 2).map ProdStep.str :=
  (make_partial_rule_dataset_prefix_rows genEmpty [] "sc" 0 0 1 false).2.2
    [ProdStep.mk "a", ProdStep.mk "b"] 1 (by decide)

/-- Claim C6: in the validator, the correctness label of a candidate is
`parse.resolution.nb_str == target` — the comparison of the canonical
textual form with the target string — and this single label determines the
emitted rows (`ys`), the positive/negative counters, the first-parse
counter, the best-scored counter, the per-sentence coverage flag and the
logged warnings. Stated for one sentence with one candidate. -/
theorem validator_label_is_textual (target ts_str test : String) (p : Parse)
    (max_stack_depth : Nat) :
    _run_corpus_one_test (fun _ _ _ _ _ _ _ => [some p]) target ts_str [test]
        max_stack_depth =
      (if p.resolution.nb_str == target then []
       else [LogMsg.warnTargetNeverProduced target test,
             LogMsg.warnNotAlwaysProduced target],
       .ok (⟨prodRows p.production,
             List.replicate p.production.length (p.resolution.nb_str == target),
             if p.resolution.nb_str == target then 1 else 0,
             if p.resolution.nb_str == target then 0 else 1,
             if p.resolution.nb_str == target then 1 else 0,
             if p.resolution.nb_str == target then 1 else 0,
             1, p.resolution.nb_str == target⟩,
        !(p.resolution.nb_str == target))) := by
  cases hy : p.resolution.nb_str == target <;>
    simp [_run_corpus_one_test, testsLoop, parsesLoop, pyMax, hy]

/-- Claim C7: `parse_nb_string` dispatches on the type-name prefix of its
input to the matching structured-value parser, and raises ValueError for
every input whose prefix matches none of the three type names. -/
theorem parse_nb_string_dispatch (s : String) :
    (pyStartswith s "Time" = true →
        parse_nb_string s = .ok (Time.from_str (pySliceNb s 7)))
  ∧ (pyStartswith s "Time" = false → pyStartswith s "Interval" = true →
        parse_nb_string s = .ok (Interval.from_str (pySliceNb s 11)))
  ∧ (pyStartswith s "Time" = false → pyStartswith s "Interval" = false →
        pyStartswith s "Duration" = true →
        parse_nb_string s = .ok (Duration.from_str (pySliceNb s 11)))
  ∧ (pyStartswith s "Time" = false → pyStartswith s "Interval" = false →
        pyStartswith s "Duration" = false →
        parse_nb_string s = .error (squote ++ s ++ squote ++ " has an invalid format")) := by
  refine ⟨fun h1 => ?_, fun h1 h2 => ?_, fun h1 h2 h3 => ?_, fun h1 h2 h3 => ?_⟩ <;>
    simp [parse_nb_string, *]

/-- Witness for C7 on a recognized and on an unrecognized prefix. -/
theorem parse_nb_string_dispatch_witness :
    parse_nb_string "Time[]2023" = .ok (Time.from_str (pySliceNb "Time[]2023" 7)) ∧
    parse_nb_string "Bogus" =
      .error (squote ++ "Bogus" ++ squote ++ " has an invalid format") :=
  ⟨(parse_nb_string_dispatch "Time[]2023").1 (by decide),
   (parse_nb_string_dispatch "Bogus").2.2.2 (by decide) (by decide) (by decide)⟩

/-- Claim C8: `make_partial_rule_dataset` with `progress=True` emits exactly
the same row sequence as with `progress=False`; the progress wrapper only
adds observability. -/
theorem make_partial_rule_dataset_progress_irrelevant (gen : Gen)
    (entries : List TimeParseEntry) (scorer : Scorer) (timeout : Rat)
    (max_stack_depth : Nat) (relative_match_len : Rat) :
    make_partial_rule_dataset gen entries scorer timeout max_stack_depth
        relative_match_len true =
      make_partial_rule_dataset gen entries scorer timeout max_stack_depth
        relative_match_len false := rfl

/-- Claim C9: the dataset builder is a total function (no exception in the
model); a `None` candidate is skipped — removing all `None` candidates from
the generator output leaves the dataset unchanged — and a candidate whose
resolution differs from the gold value only contributes rows whose label is
`false`. -/
theorem make_partial_rule_dataset_tolerant (gen : Gen)
    (entries : List TimeParseEntry) (scorer : Scorer) (timeout : Rat)
    (max_stack_depth : Nat) (relative_match_len : Rat) (progress : Bool) :
    (make_partial_rule_dataset gen entries scorer timeout max_stack_depth
        relative_match_len progress =
      make_partial_rule_dataset (dropNoneGen gen) entries scorer timeout
        max_stack_depth relative_match_len progress)
  ∧ (∀ (gold : Artifact) (parse : Parse), parse.resolution ≠ gold →
      ∀ i : Nat,
        (((prodRows parse.production).map fun X => (X, parse.resolution == gold)).getD i
          ([], false)).2 = false) := by
  constructor
  · have key : ∀ (l : List (Option Parse)) (f : Parse → List (List String × Bool)),
        (l.flatMap fun p? => match p? with | none => [] | some p => f p) =
          (((l.filterMap id).map some).flatMap
            fun p? => match p? with | none => [] | some p => f p) := by
      intro l f
      induction l with
      | nil => rfl
      | cons hd tl ih => cases hd <;> simp [ih]
    unfold make_partial_rule_dataset
    cases progress <;>
      · simp only [_progress_bar]
        congr 1
        funext entry
        exact key _ _
  · intro gold parse hne i
    have hy : (parse.resolution == gold) = false := beq_eq_false_iff_ne.mpr hne
    rcases Nat.lt_or_ge i (((prodRows parse.production).map
        fun X => (X, parse.resolution == gold)).length) with hlt | hge
    · rw [List.getD_eq_getElem _ _ hlt]
      simp [hy]
    · rw [List.getD_eq_default _ _ hge]

/-- Witness for C9 on a mismatching one-step candidate. -/
theorem make_partial_rule_dataset_tolerant_witness :
    (((prodRows (Parse.mk [ProdStep.mk "r"] (Artifact.mk "v" "A") 0).production).map
        fun X => (X, (Parse.mk [ProdStep.mk "r"] (Artifact.mk "v" "A") 0).resolution ==
          Artifact.mk "w" "B")).getD 0 ([], false)).2 = false :=
  (make_partial_rule_dataset_tolerant genEmpty [] "sc" 0 0 1 false).2
    (Artifact.mk "w" "B") (Parse.mk [ProdStep.mk "r"] (Artifact.mk "v" "A") 0)
    (by decide) 0

/-- Claim C3 (code bug in the source): on the spec's scenario — one test
case whose single sentence makes the generator yield no candidate — the
validator logs the per-sentence warning but then raises ValueError from
`max()` on the empty `y_score` list (line 191), not the coverage error the
spec prescribes, and before reaching the end of the corpus. -/
theorem no_candidate_sentence_raises_value_error :
    run_corpus genEmpty
        [("Time(2023-01-02T15:00:00)", "2023-01-01T00:00", ["tomorrow at 3pm"])] =
      ([LogMsg.warnTargetNeverProduced "Time(2023-01-02T15:00:00)" "tomorrow at 3pm"],
       .error .maxEmpty) := by decide

/-- Claim C4 (code bug in the source): with one test case of two sentences,
each yielding one correct candidate, the returned `total_tests` is 4 — the
square of the sentence count, because line 192 adds `len(tests)` once per
sentence — while the number of sentences evaluated is 2. -/
theorem total_tests_counts_square :
    (_run_corpus_one_test genOne "T" "2020-01-01T00:00" ["a", "b"] 0 =
      ([], .ok (⟨[["r1"], ["r1"]], [true, true], 2, 0, 2, 2, 4, true⟩, false)))
  ∧ (["a", "b"] : List String).length = 2 := by
  exact ⟨by decide, rfl⟩

/-- Counterexample to claim C2 as stated: a two-test-case corpus whose
sentences yield zero candidates (hence zero positive candidates). The run
raises `ValueError` from `max()` during the first test case — not the
single coverage error, and not after all test cases: the log holds only the
first case's warning, the second case was never processed. -/
theorem run_corpus_short_circuit_counterexample :
    run_corpus genEmpty
        [("A", "2020-01-01T00:00", ["a"]), ("B", "2020-01-01T00:00", ["b"])] =
      ([LogMsg.warnTargetNeverProduced "A" "a"], .error .maxEmpty)
  ∧ RunError.maxEmpty ≠ RunError.corpusError := by
  exact ⟨by decide, by decide⟩

/-- Counterexample to claim C5 as stated: one sentence with two candidates,
the first correct (score 5), the second wrong (score 3). Then
`pos_first_parses = 1` and `pos_parses = 1`, so the share of positive
candidates that were first-yielded is 1/1; but the second logged ratio is
1/2 — its denominator is `pos_parses + neg_parses = 2`, not
`pos_parses = 1`. -/
theorem second_ratio_counterexample :
    (run_corpus genTwo [("T", "2020-01-01T00:00", ["a"])] =
      ([LogMsg.infoRunSummary 1 1 1 1, LogMsg.infoShareCorrect 1 2,
        LogMsg.infoShareFirst 1 2, LogMsg.infoShareBest 1 1],
       .ok ([["r1"], ["r2"]], [true, false])))
  ∧ (_run_corpus_one_test genTwo "T" "2020-01-01T00:00" ["a"] 0 =
      ([], .ok (⟨[["r1"], ["r2"]], [true, false], 1, 1, 1, 1, 1, true⟩, false)))
  ∧ (2 : Nat) ≠ 1 := by
  exact ⟨by decide, by decide, by decide⟩

/-- Claim C5 amended: the second post-hoc ratio reported by `run_corpus` is
`pos_first_parses` divided by the total candidate count
`pos_parses + neg_parses` (not by the positive candidate count). -/
theorem run_corpus_second_ratio_denominator (gen : Gen)
    (corpus : List (String × String × List String)) (log : List LogMsg) (acc : RunAcc)
    (h : corpusLoop gen corpus runAccInit [] = (log, .ok acc))
    (h1 : acc.pos_parses + acc.neg_parses ≠ 0) (h2 : acc.total_tests ≠ 0) :
    run_corpus gen corpus =
      (log ++ [LogMsg.infoRunSummary acc.total_tests corpus.length acc.pos_parses
                 acc.neg_parses,
               LogMsg.infoShareCorrect acc.pos_parses (acc.pos_parses + acc.neg_parses),
               LogMsg.infoShareFirst acc.pos_first_parses (acc.pos_parses + acc.neg_parses),
               LogMsg.infoShareBest acc.pos_best_scored acc.total_tests],
       if acc.at_least_one_failed then .error .corpusError else .ok (acc.Xs, acc.ys)) := by
  unfold run_corpus
  rw [h]
  simp [pyDiv, h1, h2]
  split <;> rfl

/-- Witness for the amended C5 on the two-candidate run. -/
theorem run_corpus_second_ratio_denominator_witness :
    run_corpus genTwo [("T", "2020-01-01T00:00", ["a"])] =
      ([LogMsg.infoRunSummary 1 1 1 1, LogMsg.infoShareCorrect 1 2,
        LogMsg.infoShareFirst 1 2, LogMsg.infoShareBest 1 1],
       .ok ([["r1"], ["r2"]], [true, false])) :=
  run_corpus_second_ratio_denominator genTwo [("T", "2020-01-01T00:00", ["a"])] []
    ⟨false, 1, 1, 1, 1, 1, [["r1"], ["r2"]], [true, false]⟩
    (by decide) (by decide) (by decide)

/-- Counterexample to claim C10 as stated: a run whose single sentence
yields zero candidates (so zero candidates in total) does not fail with a
division by zero — it fails earlier, with ValueError from `max()` on an
empty sequence. -/
theorem zero_candidates_fails_before_ratios :
    (run_corpus genEmpty [("T", "2020-01-01T00:00", ["x"])] =
      ([LogMsg.warnTargetNeverProduced "T" "x"], .error .maxEmpty))
  ∧ RunError.maxEmpty ≠ RunError.zeroDivision := by
  exact ⟨by decide, by decide⟩

/-- `max` succeeds on any non-empty sequence. -/
theorem pyMax_ok (l : List (Int × Bool)) (h : l ≠ []) : ∃ b, pyMax l = .ok b := by
  cases l with
  | nil => exact absurd rfl h
  | cons x xs => exact ⟨_, rfl⟩

/-- When every candidate is non-`None`, the candidate loop of one sentence
succeeds; its coverage flag accumulates `any optMatches`, it records one
`(score, y)` pair and one positive-or-negative count per candidate, and it
leaves `total_tests` and `all_tests_pass` untouched. -/
theorem parsesLoop_ok (target : String) :
    ∀ (parses : List (Option Parse)), (∀ p? ∈ parses, p?.isSome = true) →
    ∀ sl : SentLoop, ∃ sl', parsesLoop target parses sl = .ok sl' ∧
      sl'.one_prod_passes = (sl.one_prod_passes || parses.any (optMatches target)) ∧
      sl'.y_score.length = sl.y_score.length + parses.length ∧
      sl'.st.pos_parses + sl'.st.neg_parses =
        sl.st.pos_parses + sl.st.neg_parses + parses.length ∧
      sl'.st.total_tests = sl.st.total_tests ∧
      sl'.st.all_tests_pass = sl.st.all_tests_pass := by
  intro parses
  induction parses with
  | nil =>
    intro _ sl
    exact ⟨sl, rfl, by simp, by simp, by simp, rfl, rfl⟩
  | cons hd tl ih =>
    intro h sl
    cases hd with
    | none => simpa using h none (by simp)
    | some parse =>
      obtain ⟨sl', heq, h1, h2, h3, h4, h5⟩ :=
        ih (fun p? hp => h p? (by simp [hp]))
          { one_prod_passes := sl.one_prod_passes || (parse.resolution.nb_str == target)
            first_prod := false
            y_score := sl.y_score ++ [(parse.score, parse.resolution.nb_str == target)]
            st := { sl.st with
              Xs := sl.st.Xs ++ prodRows parse.production
              ys := sl.st.ys ++ List.replicate parse.production.length
                (parse.resolution.nb_str == target)
              pos_parses := sl.st.pos_parses +
                (if parse.resolution.nb_str == target then 1 else 0)
              neg_parses := sl.st.neg_parses +
                (if parse.resolution.nb_str == target then 0 else 1)
              pos_first_parses := sl.st.pos_first_parses +
                (if (parse.resolution.nb_str == target) && sl.first_prod then 1 else 0) } }
      refine ⟨sl', heq, ?_, ?_, ?_, h4, h5⟩
      · rw [h1]
        simp [optMatches, Bool.or_assoc]
      · rw [h2]
        simp [List.length_append]
        omega
      · rw [h3]
        cases hy : parse.resolution.nb_str == target <;> simp [hy] <;> omega

/-- When every sentence has at least one candidate and no `None` candidate,
the sentence loop of one test case succeeds, appends exactly the warnings
of the non-covered sentences to the log, folds per-sentence coverage into
`all_tests_pass`, counts at least one candidate per sentence, and adds
`numTests` to `total_tests` once per sentence. -/
theorem testsLoop_ok (gen : Gen) (target : String) (ts : PyDateTime) (numTests : Nat) :
    ∀ (tests : List String),
    (∀ test ∈ tests, genFor gen ts test ≠ [] ∧
        ∀ p? ∈ genFor gen ts test, p?.isSome = true) →
    ∀ (st : CaseState) (log : List LogMsg),
    ∃ st', testsLoop gen target ts 0 numTests tests st log =
        (log ++ warningsFor gen target ts tests, .ok st') ∧
      st'.all_tests_pass =
        (st.all_tests_pass && tests.all (sentencePositive gen target ts)) ∧
      st.pos_parses + st.neg_parses + tests.length ≤ st'.pos_parses + st'.neg_parses ∧
      st'.total_tests = st.total_tests + tests.length * numTests := by
  intro tests
  induction tests with
  | nil =>
    intro _ st log
    exact ⟨st, by simp [testsLoop, warningsFor], by simp, by simp, by simp⟩
  | cons test rest ih =>
    intro h st log
    obtain ⟨hne, hsome⟩ := h test (by simp)
    obtain ⟨sl', heq, hone, hylen, hpn, htot, hpass⟩ :=
      parsesLoop_ok target (genFor gen ts test) hsome
        { one_prod_passes := false, first_prod := true, y_score := [], st := st }
    replace hylen : sl'.y_score.length = 0 + (genFor gen ts test).length := hylen
    replace hpn : sl'.st.pos_parses + sl'.st.neg_parses =
        st.pos_parses + st.neg_parses + (genFor gen ts test).length := hpn
    replace htot : sl'.st.total_tests = st.total_tests := htot
    replace hpass : sl'.st.all_tests_pass = st.all_tests_pass := hpass
    have hys : sl'.y_score ≠ [] := by
      apply List.ne_nil_of_length_pos
      rw [hylen]
      simpa using List.length_pos.mpr hne
    obtain ⟨best, hmax⟩ := pyMax_ok sl'.y_score hys
    have hone' : sl'.one_prod_passes = sentencePositive gen target ts test := by
      simpa [sentencePositive] using hone
    obtain ⟨st'', heq2, hpass2, hpn2, htot2⟩ :=
      ih (fun t ht => h t (by simp [ht]))
        { sl'.st with
          pos_best_scored := sl'.st.pos_best_scored + (if best.2 then 1 else 0)
          total_tests := sl'.st.total_tests + numTests
          all_tests_pass := sl'.st.all_tests_pass && sl'.one_prod_passes }
        (if sl'.one_prod_passes then log
         else log ++ [LogMsg.warnTargetNeverProduced target test])
    replace hpass2 : st''.all_tests_pass =
        ((sl'.st.all_tests_pass && sl'.one_prod_passes) &&
          rest.all (sentencePositive gen target ts)) := hpass2
    replace hpn2 : sl'.st.pos_parses + sl'.st.neg_parses + rest.length ≤
        st''.pos_parses + st''.neg_parses := hpn2
    replace htot2 : st''.total_tests =
        (sl'.st.total_tests + numTests) + rest.length * numTests := htot2
    have heq' : parsesLoop target (gen test ts 1 0 0 DummyScorer false)
        { one_prod_passes := false, first_prod := true, y_score := [], st := st } =
        .ok sl' := heq
    refine ⟨st'', ?_, ?_, ?_, ?_⟩
    · show testsLoop gen target ts 0 numTests (test :: rest) st log = _
      simp only [testsLoop, heq', hmax]
      rw [heq2]
      cases hsp : sentencePositive gen target ts test <;>
        simp [warningsFor, hone', hsp, List.filterMap_cons]
    · rw [hpass2, hpass, hone']
      simp [List.all_cons, Bool.and_assoc]
    · have h1 : 0 < (genFor gen ts test).length := List.length_pos.mpr hne
      simp only [List.length_cons]
      omega
    · rw [htot2, htot]
      simp only [List.length_cons]
      ring

/-- When every sentence of the test case has at least one candidate and no
`None` candidate, `_run_corpus_one_test` succeeds: it returns the warnings
of the non-covered sentences (plus the per-target warning when a sentence
is uncovered), a failure flag that is set iff some sentence is uncovered,
at least one counted candidate per sentence, and a `total_tests` equal to
the square of the sentence count. -/
theorem one_test_ok (gen : Gen) (target ts_str : String) (tests : List String)
    (h : ∀ test ∈ tests, genFor gen (strptime ts_str "%Y-%m-%dT%H:%M") test ≠ [] ∧
        ∀ p? ∈ genFor gen (strptime ts_str "%Y-%m-%dT%H:%M") test, p?.isSome = true) :
    ∃ st', (_run_corpus_one_test gen target ts_str tests 0 =
        (warningsFor gen target (strptime ts_str "%Y-%m-%dT%H:%M") tests ++
          (if tests.all (sentencePositive gen target (strptime ts_str "%Y-%m-%dT%H:%M"))
           then []
           else [LogMsg.warnNotAlwaysProduced target]),
         .ok (st',
           !tests.all (sentencePositive gen target (strptime ts_str "%Y-%m-%dT%H:%M"))))) ∧
      tests.length ≤ st'.pos_parses + st'.neg_parses ∧
      st'.total_tests = tests.length * tests.length := by
  obtain ⟨st', heq, hpass, hpn, htot⟩ :=
    testsLoop_ok gen target (strptime ts_str "%Y-%m-%dT%H:%M") tests.length tests h
      ⟨[], [], 0, 0, 0, 0, 0, true⟩ []
  replace hpass : st'.all_tests_pass =
      tests.all (sentencePositive gen target (strptime ts_str "%Y-%m-%dT%H:%M")) := by
    simpa using hpass
  refine ⟨st', ?_, by simpa using hpn, by simpa using htot⟩
  show _run_corpus_one_test gen target ts_str tests 0 = _
  unfold _run_corpus_one_test
  dsimp only
  rw [heq]
  cases hall : tests.all (sentencePositive gen target (strptime ts_str "%Y-%m-%dT%H:%M")) <;>
    simp [hpass, hall]

/-- When the generator is `goodGen` on the corpus, the test-case loop of
`run_corpus` succeeds, appends the complete warning trace of the whole
corpus to the log, sets the failure flag iff some test case is uncovered,
and accumulates at least one candidate and one `total_tests` unit per
sentence of the corpus. -/
theorem corpusLoop_ok (gen : Gen) :
    ∀ (corpus : List (String × String × List String)), goodGen gen corpus →
    ∀ (acc : RunAcc) (log : List LogMsg),
    ∃ acc', corpusLoop gen corpus acc log =
        (log ++ corpusWarnings gen corpus, .ok acc') ∧
      acc'.at_least_one_failed =
        (acc.at_least_one_failed || !corpusPositive gen corpus) ∧
      acc.pos_parses + acc.neg_parses + sentenceCount corpus ≤
        acc'.pos_parses + acc'.neg_parses ∧
      acc.total_tests + sentenceCount corpus ≤ acc'.total_tests := by
  intro corpus
  induction corpus with
  | nil =>
    intro _ acc log
    exact ⟨acc, by simp [corpusLoop, corpusWarnings], by simp [corpusPositive],
      by simp [sentenceCount], by simp [sentenceCount]⟩
  | cons c rest ih =>
    intro hg acc log
    obtain ⟨target, ts_str, tests⟩ := c
    have hc : ∀ test ∈ tests,
        genFor gen (strptime ts_str "%Y-%m-%dT%H:%M") test ≠ [] ∧
        ∀ p? ∈ genFor gen (strptime ts_str "%Y-%m-%dT%H:%M") test, p?.isSome = true :=
      hg (target, ts_str, tests) (by simp)
    obtain ⟨st', heq1, hpn1, htot1⟩ := one_test_ok gen target ts_str tests hc
    obtain ⟨acc', heq2, hfail2, hpn2, htot2⟩ :=
      ih (fun c2 hc2 => hg c2 (by simp [hc2]))
        { at_least_one_failed := acc.at_least_one_failed ||
            !tests.all (sentencePositive gen target (strptime ts_str "%Y-%m-%dT%H:%M"))
          pos_parses := acc.pos_parses + st'.pos_parses
          neg_parses := acc.neg_parses + st'.neg_parses
          pos_first_parses := acc.pos_first_parses + st'.pos_first_parses
          pos_best_scored := acc.pos_best_scored + st'.pos_best_scored
          total_tests := acc.total_tests + st'.total_tests
          Xs := acc.Xs ++ st'.Xs
          ys := acc.ys ++ st'.ys }
        (log ++ (warningsFor gen target (strptime ts_str "%Y-%m-%dT%H:%M") tests ++
          (if tests.all (sentencePositive gen target (strptime ts_str "%Y-%m-%dT%H:%M"))
           then []
           else [LogMsg.warnNotAlwaysProduced target])))
    replace hfail2 : acc'.at_least_one_failed =
        ((acc.at_least_one_failed ||
          !tests.all (sentencePositive gen target (strptime ts_str "%Y-%m-%dT%H:%M"))) ||
          !corpusPositive gen rest) := hfail2
    replace hpn2 : (acc.pos_parses + st'.pos_parses) + (acc.neg_parses + st'.neg_parses) +
        sentenceCount rest ≤ acc'.pos_parses + acc'.neg_parses := hpn2
    replace htot2 : (acc.total_tests + st'.total_tests) + sentenceCount rest ≤
        acc'.total_tests := htot2
    have hcw : caseWarnings gen (target, ts_str, tests) =
        warningsFor gen target (strptime ts_str "%Y-%m-%dT%H:%M") tests ++
          (if tests.all (sentencePositive gen target (strptime ts_str "%Y-%m-%dT%H:%M"))
           then []
           else [LogMsg.warnNotAlwaysProduced target]) := rfl
    have hcp : casePositive gen (target, ts_str, tests) =
        tests.all (sentencePositive gen target (strptime ts_str "%Y-%m-%dT%H:%M")) := rfl
    have hsc : sentenceCount ((target, ts_str, tests) :: rest) =
        tests.length + sentenceCount rest := by
      simp [sentenceCount]
    refine ⟨acc', ?_, ?_, ?_, ?_⟩
    · show corpusLoop gen ((target, ts_str, tests) :: rest) acc log = _
      simp only [corpusLoop, heq1]
      rw [heq2]
      simp [corpusWarnings, hcw, List.append_assoc]
    · rw [hfail2]
      simp only [corpusPositive, List.all_cons, hcp, Bool.not_and, Bool.or_assoc]
    · rw [hsc]
      omega
    · have hsq : tests.length ≤ tests.length * tests.length := by
        rcases Nat.eq_zero_or_pos tests.length with h0 | h0
        · simp [h0]
        · exact Nat.le_mul_of_pos_left _ h0
      rw [hsc]
      omega

/-- The test-case loop over a corpus with no sentences at all leaves the
accumulators and the log unchanged. -/
theorem corpusLoop_no_sentences (gen : Gen) :
    ∀ (corpus : List (String × String × List String)), (∀ c ∈ corpus, c.2.2 = []) →
    ∀ (acc : RunAcc) (log : List LogMsg), corpusLoop gen corpus acc log = (log, .ok acc) := by
  intro corpus
  induction corpus with
  | nil => intro _ acc log; rfl
  | cons c rest ih =>
    intro h acc log
    obtain ⟨target, ts_str, tests⟩ := c
    have hc : tests = [] := h (target, ts_str, tests) (by simp)
    subst hc
    have h1 : _run_corpus_one_test gen target ts_str [] 0 =
        ([], .ok (⟨[], [], 0, 0, 0, 0, 0, true⟩, false)) := rfl
    have hrest : ∀ c2 ∈ rest, c2.2.2 = [] := fun c2 hc2 => h c2 (by simp [hc2])
    simp only [corpusLoop, h1, Bool.or_false, Nat.add_zero, List.append_nil]
    exact ih hrest acc log

/-- Claim C10 amended: `run_corpus` on an empty corpus — and more generally
on any corpus all of whose sentence lists are empty, the only way a run
iterates no sentence — does not return `([], [])`: after logging the run
summary it fails with an unguarded ZeroDivisionError on the first ratio,
since `pos_parses + neg_parses` is zero. (A run with sentences but zero
candidates fails earlier, with ValueError from `max()`.) -/
theorem run_corpus_no_sentences_zero_division (gen : Gen)
    (corpus : List (String × String × List String)) (h : ∀ c ∈ corpus, c.2.2 = []) :
    run_corpus gen corpus =
      ([LogMsg.infoRunSummary 0 corpus.length 0 0], .error .zeroDivision) := by
  unfold run_corpus
  rw [corpusLoop_no_sentences gen corpus h runAccInit []]
  rfl

/-- Witness for the amended C10 on the empty corpus. -/
theorem run_corpus_no_sentences_zero_division_witness :
    run_corpus genEmpty [] = ([LogMsg.infoRunSummary 0 0 0 0], .error .zeroDivision) :=
  run_corpus_no_sentences_zero_division genEmpty [] (by simp)

/-- Claim C2 amended: provided the generator yields at least one (and no
`None`) candidate for every sentence and the corpus has at least one
sentence, then: if every sentence has a positive candidate the run returns
normally; if some sentence has zero positive candidates the run raises
exactly one error — the terminal corpus error, emitted only after every
test case has been processed, with the full warning trace of the whole
corpus (one warning per uncovered sentence) in the log. -/
theorem run_corpus_coverage (gen : Gen) (corpus : List (String × String × List String))
    (hgen : goodGen gen corpus) (hne : ∃ c ∈ corpus, c.2.2 ≠ []) :
    (corpusPositive gen corpus = true →
        ∃ X y log, run_corpus gen corpus = (log, .ok (X, y)))
  ∧ (corpusPositive gen corpus = false →
        ∃ infos, run_corpus gen corpus =
          (corpusWarnings gen corpus ++ infos, .error .corpusError))
  ∧ (∀ c ∈ corpus, ∀ test ∈ c.2.2,
        sentencePositive gen c.1 (caseTs c) test = false →
          LogMsg.warnTargetNeverProduced c.1 test ∈ corpusWarnings gen corpus) := by
  obtain ⟨acc', heq, hfail, hpn, htot⟩ := corpusLoop_ok gen corpus hgen runAccInit []
  replace hfail : acc'.at_least_one_failed = (false || !corpusPositive gen corpus) := hfail
  replace hpn : 0 + 0 + sentenceCount corpus ≤ acc'.pos_parses + acc'.neg_parses := hpn
  replace htot : 0 + sentenceCount corpus ≤ acc'.total_tests := htot
  have hsc : 1 ≤ sentenceCount corpus := by
    obtain ⟨c, hcmem, hne2⟩ := hne
    have h1 : 0 < c.2.2.length := List.length_pos.mpr hne2
    have h2 : c.2.2.length ∈ corpus.map fun c2 => c2.2.2.length :=
      List.mem_map_of_mem _ hcmem
    have h3 : c.2.2.length ≤ sentenceCount corpus :=
      List.single_le_sum (fun x _ => Nat.zero_le x) _ h2
    omega
  have d1 : acc'.pos_parses + acc'.neg_parses ≠ 0 := by omega
  have d2 : acc'.total_tests ≠ 0 := by omega
  have hrun : run_corpus gen corpus =
      (corpusWarnings gen corpus ++
        [LogMsg.infoRunSummary acc'.total_tests corpus.length acc'.pos_parses
           acc'.neg_parses,
         LogMsg.infoShareCorrect acc'.pos_parses (acc'.pos_parses + acc'.neg_parses),
         LogMsg.infoShareFirst acc'.pos_first_parses (acc'.pos_parses + acc'.neg_parses),
         LogMsg.infoShareBest acc'.pos_best_scored acc'.total_tests],
       if acc'.at_least_one_failed then .error .corpusError
       else .ok (acc'.Xs, acc'.ys)) := by
    unfold run_corpus
    rw [heq]
    simp [pyDiv, d1, d2]
    split <;> rfl
  refine ⟨?_, ?_, ?_⟩
  · intro hcp
    have hf : acc'.at_least_one_failed = false := by simp [hfail, hcp]
    refine ⟨acc'.Xs, acc'.ys,
      corpusWarnings gen corpus ++
        [LogMsg.infoRunSummary acc'.total_tests corpus.length acc'.pos_parses
           acc'.neg_parses,
         LogMsg.infoShareCorrect acc'.pos_parses (acc'.pos_parses + acc'.neg_parses),
         LogMsg.infoShareFirst acc'.pos_first_parses (acc'.pos_parses + acc'.neg_parses),
         LogMsg.infoShareBest acc'.pos_best_scored acc'.total_tests], ?_⟩
    rw [hrun, hf]
    simp
  · intro hcp
    have hf : acc'.at_least_one_failed = true := by simp [hfail, hcp]
    refine ⟨[LogMsg.infoRunSummary acc'.total_tests corpus.length acc'.pos_parses
        acc'.neg_parses,
      LogMsg.infoShareCorrect acc'.pos_parses (acc'.pos_parses + acc'.neg_parses),
      LogMsg.infoShareFirst acc'.pos_first_parses (acc'.pos_parses + acc'.neg_parses),
      LogMsg.infoShareBest acc'.pos_best_scored acc'.total_tests], ?_⟩
    rw [hrun, hf]
    simp
  · intro c hcmem test htest hneg
    have : LogMsg.warnTargetNeverProduced c.1 test ∈ caseWarnings gen c := by
      apply List.mem_append_left
      apply List.mem_filterMap.mpr
      exact ⟨test, htest, by simp [hneg]⟩
    simp only [corpusWarnings, List.mem_flatMap]
    exact ⟨c, hcmem, this⟩

/-- Witness for the amended C2 on a covered one-sentence corpus. -/
theorem run_corpus_coverage_witness :
    ∃ X y log, run_corpus genOne [("T", "2020-01-01T00:00", ["a"])] = (log, .ok (X, y)) :=
  (run_corpus_coverage genOne [("T", "2020-01-01T00:00", ["a"])]
    (by unfold goodGen; decide) (by decide)).1 (by decide)

end CtparseCorpus
